import Mathlib

/-!
Shallow embedding of the fitserver relay pipeline (`src/server.js` and the
revision files `src/unnamed/part_000` .. `part_003`).

The repository is a small Express proxy: it normalizes an inbound JSON body
into an upstream chat-completion payload, calls the upstream with timeout and
one retry, and classifies the upstream (status, body-text) pair into the
client-facing response.  All the logic the claims touch is pure data flow, so
it embeds directly:

* request/response bodies are JSON values (`JsVal`); JavaScript truthiness,
  property lookup, `x || d` defaulting and `String(x)` coercion are embedded
  as `truthyV`, `jget`, `jsOr`, `jsToString`;
* the upstream network is an oracle `Nat → FetchOutcome` giving the outcome
  of each attempt (a status/body response, or a thrown network error whose
  stringified message is carried in the `err` case); a per-attempt timeout
  abort surfaces as such a thrown error, so it is one shape of `err`;
* `JSON.parse` is a runtime library, not repository code, so the classifier
  is parameterized by an arbitrary `jparse : String → Option JsVal`
  (`none` models a parse exception, which the source catches).
-/

namespace Fitserver

/-- JSON values as delivered by `express.json()` and produced by the server:
null, booleans, numbers (JSON numbers are exact decimals, embedded as `ℚ`;
`NaN`/`Infinity` are not JSON), strings, arrays, objects (ordered field
lists, as JavaScript object literals are). -/
inductive JsVal where
  | null : JsVal
  | bool : Bool → JsVal
  | num : ℚ → JsVal
  | str : String → JsVal
  | arr : List JsVal → JsVal
  | obj : List (String × JsVal) → JsVal

/-- JavaScript truthiness of a defined value: `null`, `false`, `0` and `""`
are falsy; every array and object (even empty) is truthy. -/
def truthyV : JsVal → Bool
  | .null => false
  | .bool b => b
  | .num q => q != 0
  | .str s => s != ""
  | .arr _ => true
  | .obj _ => true

/-- Truthiness of a possibly-undefined value (`none` is `undefined`). -/
def truthyOpt : Option JsVal → Bool
  | none => false
  | some v => truthyV v

/-- Property access `v.k`: field lookup on an object (first match, as in a
JavaScript object literal), `undefined` (`none`) on everything else. -/
def jget : JsVal → String → Option JsVal
  | .obj fields, k => fields.lookup k
  | _, _ => none

/-- The JavaScript defaulting idiom `x || d` where `x` may be undefined:
the value itself when truthy, otherwise the default. -/
def jsOr (x : Option JsVal) (d : JsVal) : JsVal :=
  match x with
  | some v => if truthyV v then v else d
  | none => d

mutual
/-- The `String(x)` coercion on JSON values: identity on strings,
`"null"`/`"true"`/`"false"` on null and booleans, decimal digits on numbers
(exact for integers; JavaScript decimal notation for non-integral numbers is
not needed by any claim and is rendered as the rational's `toString`), arrays
joined by commas with `null` entries blank, `"[object Object]"` on objects. -/
def jsToString : JsVal → String
  | .null => "null"
  | .bool true => "true"
  | .bool false => "false"
  | .num q => if q.den = 1 then toString q.num else toString q
  | .str s => s
  | .arr xs => String.intercalate "," (jsToStringElems xs)
  | .obj _ => "[object Object]"

/-- Elementwise rendering of an array for `String`: `null` renders empty
inside an array join. -/
def jsToStringElems : List JsVal → List String
  | [] => []
  | .null :: vs => "" :: jsToStringElems vs
  | v :: vs => jsToString v :: jsToStringElems vs
end

/-- Payload normalization, `src/server.js` lines 99-111: if `body.messages`
or `body.model` is truthy the body passes through unchanged; otherwise a
payload is synthesized with the configured default model, a single user
message from `String(body.prompt || "Hello")`, `max_tokens` from
`body.max_tokens || 300`, `temperature` from `body.temperature` when it is
a number and `0.2` otherwise, plus verbatim `image_url` / `image_base64`
fields when those are truthy in the body. -/
def normalize (body : JsVal) : JsVal :=
  if truthyOpt (jget body "messages") || truthyOpt (jget body "model") then
    body
  else
    let base : List (String × JsVal) :=
      [ ("model", jsOr (jget body "model") (.str "google/gemini-2.5-flash")),
        ("messages", .arr [.obj [("role", .str "user"),
          ("content", .str (jsToString (jsOr (jget body "prompt") (.str "Hello"))))]]),
        ("max_tokens", jsOr (jget body "max_tokens") (.num 300)),
        ("temperature", .num (match jget body "temperature" with
          | some (.num q) => q
          | _ => (0.2 : ℚ))) ]
    let withImg :=
      if truthyOpt (jget body "image_url") then
        base ++ [("image_url", (jget body "image_url").getD .null)]
      else base
    let withImg64 :=
      if truthyOpt (jget body "image_base64") then
        withImg ++ [("image_base64", (jget body "image_base64").getD .null)]
      else withImg
    .obj withImg64

/-- The outcome the network delivers for one fetch attempt: either an
upstream response (status code and body text, which is what the handler
reads via `upstream.text()`), or a thrown error — network failure or the
timeout-triggered abort — carrying its stringified message. -/
inductive FetchOutcome where
  | resp : Nat → String → FetchOutcome
  | err : String → FetchOutcome

/-- The retry loop of `fetchWithTimeoutAndRetry`, `src/server.js` lines
52-84, with the network as an oracle from attempt number to outcome.
`remaining` counts the attempts still allowed after the current one
(`attempt < maxRetries` in the source is `remaining > 0` here).  Returns the
result — `Except.error` models the function throwing `lastErr` — paired with
the number of fetch calls made.  A response with status `≥ 500` is retried
while attempts remain, otherwise any response is returned as-is (including a
5xx on the final attempt); a thrown fetch error is retried while attempts
remain and rethrown on the final attempt. -/
def fetchRetryGo (upstream : Nat → FetchOutcome) :
    Nat → Nat → Except String (Nat × String) × Nat
  | attempt, 0 =>
    match upstream attempt with
    | .resp st tx => (.ok (st, tx), 1)
    | .err m => (.error m, 1)
  | attempt, remaining + 1 =>
    match upstream attempt with
    | .resp st tx =>
      if 500 ≤ st then
        let k := fetchRetryGo upstream (attempt + 1) remaining
        (k.1, k.2 + 1)
      else (.ok (st, tx), 1)
    | .err _ =>
      let k := fetchRetryGo upstream (attempt + 1) remaining
      (k.1, k.2 + 1)

/-- `fetchWithTimeoutAndRetry(url, options, timeoutMs, maxRetries)` from
`src/server.js` lines 52-84, abstracted over the network oracle; the url,
headers and serialized payload do not influence control flow and the
per-attempt timeout shows up only as a possible `FetchOutcome.err`. -/
def fetchWithTimeoutAndRetry (upstream : Nat → FetchOutcome) (maxRetries : Nat) :
    Except String (Nat × String) × Nat :=
  fetchRetryGo upstream 0 maxRetries

/-- Body of the HTTP response the client receives: `res.json(v)` or
`res.type("text/plain").send(s)`. -/
inductive RespBody where
  | jsonBody : JsVal → RespBody
  | textBody : String → RespBody

/-- The client-facing HTTP response: status code and body. -/
structure ClientResp where
  status : Nat
  body : RespBody

/-- Response classification of `src/server.js` lines 134-151: when the
upstream response is not ok (`upstream.ok` is status 200-299), the upstream
status is forwarded with the body text as `text/plain` (falling back to a
diagnostic string when the text is empty, via `upstreamText || ...`);
otherwise status 200 with the parsed JSON, `null` for an empty body, or a
`{raw: text}` wrapper when `JSON.parse` throws. -/
def classifyServer (jparse : String → Option JsVal) (st : Nat) (tx : String) :
    ClientResp :=
  if ¬ (200 ≤ st ∧ st ≤ 299) then
    ⟨st, .textBody (if tx = "" then "Upstream returned status " ++ toString st else tx)⟩
  else
    ⟨200, .jsonBody (if tx = "" then .null
      else match jparse tx with
        | some d => d
        | none => .obj [("raw", .str tx)])⟩

/-- The JavaScript `s.trim()` builtin: strip whitespace from both ends. -/
def jsTrim (s : String) : String :=
  ⟨((s.toList.dropWhile Char.isWhitespace).reverse.dropWhile Char.isWhitespace).reverse⟩

/-- The JavaScript `s.slice(0, n)` builtin: the first `n` characters (the
texts involved are in the basic plane, where UTF-16 units coincide with
code points). -/
def jsSlice (s : String) (n : Nat) : String :=
  ⟨s.toList.take n⟩

/-- The HTML heuristic of the later revisions, `src/unnamed/part_001` lines
148-150 (`trimmed && trimmed[0] === "<"`): the body text, trimmed, is
nonempty and its first character is `<`. -/
def htmlShaped (tx : String) : Bool :=
  match (jsTrim tx).toList with
  | [] => false
  | c :: _ => c == '<'

/-- Response classification of `src/unnamed/part_001` lines 148-174 (same
shape in `part_002` and in the minimal-replacement revision): an HTML-shaped
body is wrapped into a 502 JSON envelope with a bounded preview
(`slice(0, 2000)`) regardless of the upstream status; otherwise a non-ok
status is forwarded with a JSON error envelope; otherwise status 200 with
the parsed JSON, `null` for an empty body, or `{ok: true, raw: text}` when
`JSON.parse` throws. -/
def classifyHtmlAware (jparse : String → Option JsVal) (st : Nat) (tx : String) :
    ClientResp :=
  if htmlShaped tx then
    ⟨502, .jsonBody (.obj
      [ ("ok", .bool false),
        ("error", .str "Upstream returned non-JSON (HTML) — see upstreamPreview"),
        ("upstreamStatus", .num (st : ℚ)),
        ("upstreamPreview", .str (jsSlice tx 2000)) ])⟩
  else if ¬ (200 ≤ st ∧ st ≤ 299) then
    ⟨st, .jsonBody (.obj
      [ ("ok", .bool false),
        ("error", .str "Upstream returned error"),
        ("upstreamStatus", .num (st : ℚ)),
        ("upstreamBody", .str tx) ])⟩
  else
    ⟨200, .jsonBody (if tx = "" then .null
      else match jparse tx with
        | some d => d
        | none => .obj [("ok", .bool true), ("raw", .str tx)])⟩

/-- Truthiness of the configured key value `process.env.OPENROUTER_API_KEY`:
`none` is an unset variable; an empty string is also falsy under `!key`. -/
def keyTruthy : Option String → Bool
  | none => false
  | some s => s != ""

/-- The `POST /api/myapi` handler of `src/server.js` lines 87-156, returning
the client response paired with the number of outbound fetch calls made.
If the key is falsy it answers 500 with the misconfiguration error and makes
no call.  Otherwise it normalizes `req.body || {}`, calls
`fetchWithTimeoutAndRetry` with retry bound 1 and classifies the outcome;
a call that throws lands in the top-level catch, which answers 502 with
`{error: String(err)}` (the oracle's `err` carries the already-stringified
message). -/
def handleServer (jparse : String → Option JsVal) (key : Option String)
    (reqBody : JsVal) (upstream : Nat → FetchOutcome) : ClientResp × Nat :=
  if ¬ keyTruthy key then
    (⟨500, .jsonBody (.obj
      [("error", .str "Server misconfigured: OPENROUTER_API_KEY missing")])⟩, 0)
  else
    let body := if truthyV reqBody then reqBody else .obj []
    let _payload := normalize body
    match fetchWithTimeoutAndRetry upstream 1 with
    | (.ok (st, tx), n) => (classifyServer jparse st tx, n)
    | (.error e, n) => (⟨502, .jsonBody (.obj [("error", .str e)])⟩, n)

/-- Whether a possibly-undefined value is a JavaScript number
(`typeof x === "number"`). -/
def isNumOpt : Option JsVal → Bool
  | some (.num _) => true
  | _ => false

/-- C1 counterexample: the inbound body `{"model": ""}` contains a `model`
key, yet the Normalizer does not pass it through unchanged — `body.model`
is falsy, so the synthesis branch runs and the output gains `messages`,
`max_tokens` and `temperature` fields the input lacks. -/
theorem normalize_model_empty_key_changed :
    normalize (.obj [("model", .str "")]) ≠ JsVal.obj [("model", .str "")] := by
  intro h
  have h2 := congrArg (fun v => (jget v "messages").isSome) h
  exact absurd h2 (by decide)

/-- C1 (amended): for every inbound body whose `messages` value is truthy or
whose `model` value is truthy (not merely present as a key), the Normalizer
output equals the input unchanged. -/
theorem normalize_truthy_passthrough (body : JsVal)
    (h : (truthyOpt (jget body "messages") || truthyOpt (jget body "model")) = true) :
    normalize body = body := by
  simp [normalize, h]

/-- Witness for the amended C1 at the concrete body `{"model": "m"}`. -/
theorem normalize_truthy_passthrough_witness :
    (truthyOpt (jget (JsVal.obj [("model", .str "m")]) "messages") ||
      truthyOpt (jget (JsVal.obj [("model", .str "m")]) "model")) = true ∧
    normalize (.obj [("model", .str "m")]) = JsVal.obj [("model", .str "m")] :=
  ⟨by decide, normalize_truthy_passthrough _ (by decide)⟩

/-- C2: with the configured key absent, the handler answers HTTP 500 with a
JSON body whose error string mentions misconfiguration (it contains the word
"misconfigured"), and the number of outbound fetch calls is zero. -/
theorem missing_key_500_no_calls (jparse : String → Option JsVal)
    (reqBody : JsVal) (upstream : Nat → FetchOutcome) :
    handleServer jparse none reqBody upstream =
      (⟨500, .jsonBody (.obj
        [("error", .str "Server misconfigured: OPENROUTER_API_KEY missing")])⟩, 0) ∧
    "misconfigured".toList <:+:
      "Server misconfigured: OPENROUTER_API_KEY missing".toList :=
  ⟨rfl, by decide⟩

/-- C8: for every inbound body lacking both the `messages` and the `model`
key, the Normalizer produces exactly one message, with role "user"; when
`prompt` is also absent its content is the literal "Hello". -/
theorem no_keys_single_user_message (body : JsVal)
    (h1 : jget body "messages" = none) (h2 : jget body "model" = none) :
    ∃ c, jget (normalize body) "messages" =
        some (.arr [.obj [("role", .str "user"), ("content", .str c)]]) ∧
      (jget body "prompt" = none → c = "Hello") := by
  refine ⟨jsToString (jsOr (jget body "prompt") (.str "Hello")), ?_, ?_⟩
  · simp only [normalize, h1, h2]
    split
    · next hcond => simp [truthyOpt] at hcond
    · split <;> split <;> rfl
  · intro hp
    rw [hp]
    rfl

/-- Witness for C8 at the concrete body `{}` (no keys at all). -/
theorem no_keys_single_user_message_witness :
    jget (JsVal.obj []) "messages" = none ∧ jget (JsVal.obj []) "model" = none ∧
    ∃ c, jget (normalize (JsVal.obj [])) "messages" =
        some (.arr [.obj [("role", .str "user"), ("content", .str c)]]) ∧
      (jget (JsVal.obj []) "prompt" = none → c = "Hello") :=
  ⟨rfl, rfl, no_keys_single_user_message (JsVal.obj []) rfl rfl⟩

/-- C9 counterexample: the synthesized payload for the body
`{"temperature": 5}` carries temperature 5, which is numeric and passed
through although it lies outside the interval [0,2] — no range is
enforced. -/
theorem temperature_out_of_range :
    jget (normalize (.obj [("temperature", .num 5)])) "temperature" =
      some (.num 5) ∧ ¬ ((5 : ℚ) ≤ 2) :=
  ⟨rfl, by norm_num⟩

/-- C9 (amended): in every synthesized payload the temperature equals
`body.temperature` when that value is numeric and 0.2 otherwise (a
non-numeric value silently falls back to the default); no interval
constraint is enforced on the numeric passthrough. -/
theorem temperature_passthrough_or_default (body : JsVal)
    (h1 : truthyOpt (jget body "messages") = false)
    (h2 : truthyOpt (jget body "model") = false) :
    (∀ q : ℚ, jget body "temperature" = some (.num q) →
      jget (normalize body) "temperature" = some (.num q)) ∧
    (isNumOpt (jget body "temperature") = false →
      jget (normalize body) "temperature" = some (.num (0.2 : ℚ))) := by
  have hlook : ∀ q : ℚ,
      (match jget body "temperature" with
        | some (.num q') => q'
        | _ => (0.2 : ℚ)) = q →
      jget (normalize body) "temperature" = some (.num q) := by
    intro q hq
    simp only [normalize, h1, h2, Bool.or_self, Bool.false_eq_true, if_false]
    rw [← hq]
    split <;> split <;> rfl
  constructor
  · intro q hq
    exact hlook q (by rw [hq])
  · intro hnum
    refine hlook (0.2 : ℚ) ?_
    rcases hv : jget body "temperature" with _ | v
    · rfl
    · cases v <;> simp_all [isNumOpt]

/-- Witness for the amended C9 at the concrete body
`{"temperature": "hot"}`: the non-numeric value falls back to 0.2. -/
theorem temperature_passthrough_or_default_witness :
    truthyOpt (jget (JsVal.obj [("temperature", .str "hot")]) "messages") = false ∧
    isNumOpt (jget (JsVal.obj [("temperature", .str "hot")]) "temperature") = false ∧
    jget (normalize (JsVal.obj [("temperature", .str "hot")])) "temperature" =
      some (.num (0.2 : ℚ)) :=
  ⟨rfl, rfl,
    (temperature_passthrough_or_default (JsVal.obj [("temperature", .str "hot")])
      rfl rfl).2 rfl⟩

/-- C10: in the synthesis branch, every falsy `prompt` value (empty string,
0, false, null), not only an absent one, yields message content "Hello",
and every falsy `max_tokens` value (in particular the explicit integer 0)
yields max_tokens 300, because both defaults go through `||`. -/
theorem falsy_prompt_max_tokens_defaults (body : JsVal)
    (h1 : truthyOpt (jget body "messages") = false)
    (h2 : truthyOpt (jget body "model") = false) :
    (∀ p, jget body "prompt" = some p → truthyV p = false →
      jget (normalize body) "messages" =
        some (.arr [.obj [("role", .str "user"), ("content", .str "Hello")]])) ∧
    (∀ m, jget body "max_tokens" = some m → truthyV m = false →
      jget (normalize body) "max_tokens" = some (.num 300)) := by
  constructor
  · intro p hp hfalsy
    simp only [normalize, h1, h2, Bool.or_self, Bool.false_eq_true, if_false,
      hp, jsOr, hfalsy, Bool.false_eq_true, if_false]
    split <;> split <;> rfl
  · intro m hm hfalsy
    simp only [normalize, h1, h2, Bool.or_self, Bool.false_eq_true, if_false,
      hm, jsOr, hfalsy, Bool.false_eq_true, if_false]
    split <;> split <;> rfl

/-- Witness for C10 at the concrete body
`{"prompt": "", "max_tokens": 0}`: both falsy values take the defaults. -/
theorem falsy_prompt_max_tokens_defaults_witness :
    truthyV (JsVal.str "") = false ∧ truthyV (JsVal.num 0) = false ∧
    jget (normalize (JsVal.obj [("prompt", .str ""), ("max_tokens", .num 0)]))
      "messages" =
      some (.arr [.obj [("role", .str "user"), ("content", .str "Hello")]]) ∧
    jget (normalize (JsVal.obj [("prompt", .str ""), ("max_tokens", .num 0)]))
      "max_tokens" = some (.num 300) :=
  ⟨rfl, by decide,
    (falsy_prompt_max_tokens_defaults
      (JsVal.obj [("prompt", .str ""), ("max_tokens", .num 0)]) rfl rfl).1
      (.str "") rfl rfl,
    (falsy_prompt_max_tokens_defaults
      (JsVal.obj [("prompt", .str ""), ("max_tokens", .num 0)]) rfl rfl).2
      (.num 0) rfl (by decide)⟩

/-- C3: for every upstream response with a 4xx status on the first attempt,
the handler makes exactly one outbound call (no retry) and the client
receives the same 4xx status code passed through. -/
theorem status4xx_single_call_passthrough (jparse : String → Option JsVal)
    (key : Option String) (reqBody : JsVal) (upstream : Nat → FetchOutcome)
    (st : Nat) (tx : String)
    (hk : keyTruthy key = true) (h0 : upstream 0 = .resp st tx)
    (h4 : 400 ≤ st) (h4' : st ≤ 499) :
    (handleServer jparse key reqBody upstream).1.status = st ∧
    (handleServer jparse key reqBody upstream).2 = 1 := by
  have h5 : ¬ 500 ≤ st := by omega
  have h2 : ¬ (200 ≤ st ∧ st ≤ 299) := by omega
  simp [handleServer, hk, fetchWithTimeoutAndRetry, fetchRetryGo, h0, h5,
    classifyServer, h2]

/-- Witness for C3: a 429 upstream response yields one call and a 429
client status. -/
theorem status4xx_single_call_passthrough_witness :
    keyTruthy (some "k") = true ∧ (400 : Nat) ≤ 429 ∧ (429 : Nat) ≤ 499 ∧
    ((handleServer (fun _ => none) (some "k") (.obj [])
        (fun _ => .resp 429 "limited")).1.status = 429 ∧
      (handleServer (fun _ => none) (some "k") (.obj [])
        (fun _ => .resp 429 "limited")).2 = 1) :=
  ⟨rfl, by omega, by omega,
    status4xx_single_call_passthrough (fun _ => none) (some "k") (.obj [])
      (fun _ => .resp 429 "limited") 429 "limited" rfl rfl (by omega) (by omega)⟩

/-- C4 counterexample: with retry bound 1 and the upstream answering 503 on
both attempts, exactly 2 calls are made but the final client response has
status 503 (the last upstream response is returned and passed through), not
the claimed 502. -/
theorem retry503_final_status_is_503_not_502 :
    handleServer (fun _ => none) (some "k") (.obj [])
        (fun _ => .resp 503 "busy") = (⟨503, .textBody "busy"⟩, 2) ∧
    (handleServer (fun _ => none) (some "k") (.obj [])
        (fun _ => .resp 503 "busy")).1.status ≠ 502 :=
  ⟨rfl, by decide⟩

/-- C4 (amended): with retry bound 1, when the upstream responds 503 on both
the first and the retried attempt, exactly 2 outbound calls are made in
total, and the final client response passes the upstream 503 status through
(the retry loop returns the last response; a 502 arises only when the fetch
itself throws on both attempts). -/
theorem retry503_two_calls_passthrough (jparse : String → Option JsVal)
    (key : Option String) (reqBody : JsVal) (upstream : Nat → FetchOutcome)
    (tx0 tx1 : String)
    (hk : keyTruthy key = true)
    (h0 : upstream 0 = .resp 503 tx0) (h1 : upstream 1 = .resp 503 tx1) :
    (handleServer jparse key reqBody upstream).2 = 2 ∧
    (handleServer jparse key reqBody upstream).1.status = 503 := by
  simp [handleServer, hk, fetchWithTimeoutAndRetry, fetchRetryGo, h0, h1,
    classifyServer]

/-- Witness for the amended C4 at a concrete double-503 upstream. -/
theorem retry503_two_calls_passthrough_witness :
    keyTruthy (some "key") = true ∧
    ((handleServer (fun _ => none) (some "key") (.obj [])
        (fun _ => .resp 503 "overloaded")).2 = 2 ∧
      (handleServer (fun _ => none) (some "key") (.obj [])
        (fun _ => .resp 503 "overloaded")).1.status = 503) :=
  ⟨rfl,
    retry503_two_calls_passthrough (fun _ => none) (some "key") (.obj [])
      (fun _ => .resp 503 "overloaded") "overloaded" "overloaded" rfl rfl rfl⟩

/-- C5 counterexample: in the `src/server.js` revision there is no HTML
heuristic — an HTML-shaped body on a 200 upstream response reaches the
client with status 200 (as a `{raw: ...}` wrapper), not 502. -/
theorem html_body_on_server_revision_not_502 :
    (handleServer (fun _ => none) (some "k") (.obj [])
        (fun _ => .resp 200 "<html>x</html>")).1.status = 200 ∧
    (handleServer (fun _ => none) (some "k") (.obj [])
        (fun _ => .resp 200 "<html>x</html>")).1.status ≠ 502 ∧
    htmlShaped "<html>x</html>" = true :=
  ⟨rfl, by decide, by decide⟩

/-- C5 (amended): in the revisions carrying the HTML heuristic
(`src/unnamed/part_001`, `part_002` and the minimal-replacement revision),
every upstream body whose trimmed form begins with `<` yields HTTP 502 with
the structured JSON envelope holding a bounded-length preview of the body,
regardless of the upstream status; the `src/server.js` revision has no such
check and instead returns the body wrapped with status 200 on a 2xx, or
forwards it as plain text on a non-2xx. -/
theorem htmlShaped_always_502_envelope (jparse : String → Option JsVal)
    (st : Nat) (tx : String) (h : htmlShaped tx = true) :
    classifyHtmlAware jparse st tx =
      ⟨502, .jsonBody (.obj
        [ ("ok", .bool false),
          ("error", .str "Upstream returned non-JSON (HTML) — see upstreamPreview"),
          ("upstreamStatus", .num (st : ℚ)),
          ("upstreamPreview", .str (jsSlice tx 2000)) ])⟩ := by
  simp [classifyHtmlAware, h]

/-- Witness for the amended C5 at body `"<html></html>"` and upstream
status 404. -/
theorem htmlShaped_always_502_envelope_witness :
    htmlShaped "<html></html>" = true ∧
    classifyHtmlAware (fun _ => none) 404 "<html></html>" =
      ⟨502, .jsonBody (.obj
        [ ("ok", .bool false),
          ("error", .str "Upstream returned non-JSON (HTML) — see upstreamPreview"),
          ("upstreamStatus", .num ((404 : Nat) : ℚ)),
          ("upstreamPreview", .str (jsSlice "<html></html>" 2000)) ])⟩ :=
  ⟨by decide,
    htmlShaped_always_502_envelope (fun _ => none) 404 "<html></html>" (by decide)⟩

/-- C6: for every upstream 2xx response whose body parses as JSON, the
client receives exactly that JSON value as the response body with status
exactly 200. -/
theorem ok_json_roundtrip_200 (jparse : String → Option JsVal)
    (key : Option String) (reqBody : JsVal) (upstream : Nat → FetchOutcome)
    (st : Nat) (tx : String) (j : JsVal)
    (hk : keyTruthy key = true) (h0 : upstream 0 = .resp st tx)
    (hlo : 200 ≤ st) (hhi : st ≤ 299) (hne : tx ≠ "") (hj : jparse tx = some j) :
    (handleServer jparse key reqBody upstream).1 = ⟨200, .jsonBody j⟩ := by
  have h5 : ¬ 500 ≤ st := by omega
  have h2 : 200 ≤ st ∧ st ≤ 299 := ⟨hlo, hhi⟩
  simp [handleServer, hk, fetchWithTimeoutAndRetry, fetchRetryGo, h0, h5,
    classifyServer, h2, hne, hj]

/-- Witness for C6: a 200 response whose body parses to the JSON value
`{"choices": []}` is returned as-is with status 200. -/
theorem ok_json_roundtrip_200_witness :
    (fun s => if s = "resp" then some (JsVal.obj [("choices", .arr [])]) else none)
        "resp" = some (JsVal.obj [("choices", .arr [])]) ∧
    (handleServer
      (fun s => if s = "resp" then some (JsVal.obj [("choices", .arr [])]) else none)
      (some "k") (.obj []) (fun _ => .resp 200 "resp")).1 =
      ⟨200, .jsonBody (JsVal.obj [("choices", .arr [])])⟩ :=
  ⟨rfl,
    ok_json_roundtrip_200
      (fun s => if s = "resp" then some (JsVal.obj [("choices", .arr [])]) else none)
      (some "k") (.obj []) (fun _ => .resp 200 "resp") 200 "resp"
      (JsVal.obj [("choices", .arr [])]) rfl rfl (by omega) (by omega)
      (by decide) rfl⟩

/-- C7: for every upstream 2xx response whose body is not HTML-shaped and
fails JSON parsing, the client receives status 200 with the raw text wrapped
under a `raw` field — `null` for the empty body — in both the `src/server.js`
classifier and the HTML-aware classifier of the later revisions (which adds
`ok: true`); the parse failure is absorbed by the catch, never propagated. -/
theorem nonjson_2xx_wrapped_200 (jparse : String → Option JsVal)
    (st : Nat) (tx : String)
    (hlo : 200 ≤ st) (hhi : st ≤ 299)
    (hhtml : htmlShaped tx = false) (hp : jparse tx = none) :
    classifyServer jparse st tx =
      ⟨200, .jsonBody (if tx = "" then .null else .obj [("raw", .str tx)])⟩ ∧
    classifyHtmlAware jparse st tx =
      ⟨200, .jsonBody (if tx = "" then .null
        else .obj [("ok", .bool true), ("raw", .str tx)])⟩ := by
  have h2 : 200 ≤ st ∧ st ≤ 299 := ⟨hlo, hhi⟩
  constructor
  · simp [classifyServer, h2, hp]
  · simp [classifyHtmlAware, hhtml, h2, hp]

/-- Witness for C7 at the non-JSON, non-HTML body `"oops"` on status 200. -/
theorem nonjson_2xx_wrapped_200_witness :
    htmlShaped "oops" = false ∧
    (classifyServer (fun _ => none) 200 "oops" =
        ⟨200, .jsonBody (if "oops" = "" then .null
          else .obj [("raw", .str "oops")])⟩ ∧
      classifyHtmlAware (fun _ => none) 200 "oops" =
        ⟨200, .jsonBody (if "oops" = "" then .null
          else .obj [("ok", .bool true), ("raw", .str "oops")])⟩) :=
  ⟨by decide,
    nonjson_2xx_wrapped_200 (fun _ => none) 200 "oops" (by omega) (by omega)
      (by decide) rfl⟩

end Fitserver
